import Mathlib

/-!
# Shallow embedding of the KeyboardProg Fourier synthesizer (src/main.py)

This file translates the core state and algorithms of the `FourierSynthesizer`
class into Lean definitions and proves properties of the translated code.

Conventions of the embedding:
* Python floats are modelled as exact rationals (`ℚ`).  All the arithmetic in
  the claims under study (clamping, threshold comparison, peak normalization,
  list slicing) is exact, so `ℚ` is a faithful carrier.
* The frequency multiplier assigned by the program is always either the float
  `0.0` ("no note held") or `2 ** (n / 12)` for a key index `n`.  Since
  `2 ^ (n/12) > 0` for every `n` and those are the only values ever assigned
  (`onKeyPressed`, `onKeyReleased`, `playNextNote`, `endCurrentNote`,
  `stopTune`, `loadAllSettings`), the multiplier is represented exactly by the
  inductive type `Mult` below; `Mult.silent` denotes the float `0.0` and
  `Mult.note n` denotes the positive real `2 ^ (n/12)`.
* GUI-only side effects (widget colours, labels, message boxes) are not part
  of the state; they are noted in the doc comment of each translated function.
-/

namespace KeyboardProg

/-- Exact representation of the float values the program stores in
`self.freq_multiplier`: `silent` is `0.0`, `note n` is `2 ** (n / 12)` where
`n` is an index into `KEY_ORDER` (semitones above G3).  Distinct constructors
denote distinct reals, and only `silent` denotes zero. -/
inductive Mult where
  | silent : Mult
  | note (semitones : ℕ) : Mult
deriving DecidableEq, Repr

/-- `KEY_ORDER` from `FourierSynthesizer`: the 25 note identifiers from G3 to
G5; the position of a key in this list is its semitone offset above G3. -/
def KEY_ORDER : List String :=
  ["G3", "G#3/Ab3", "A3", "A#3/Bb3", "B3",
   "C4", "C#4/Db4", "D4", "D#4/Eb4", "E4", "F4", "F#4/Gb4", "G4",
   "G#4/Ab4", "A4", "A#4/Bb4", "B4",
   "C5", "C#5/Db5", "D5", "D#5/Eb5", "E5", "F5", "F#5/Gb5", "G5"]

/-- `WAVEFORM_OPTIONS` from `FourierSynthesizer`. -/
def WAVEFORM_OPTIONS : List String := ["Sine", "Square", "Sawtooth", "Triangle"]

/-- `SAMPLE_RATE` constant (Hz). -/
def SAMPLE_RATE : ℕ := 44100

/-- Number of oscillators (`NUM_SINE_OSCILLATORS`). -/
def num_oscillators : ℕ := 5

/-! ## Note capture / quantizer (`quantize_notes`, lines 1264-1288) -/

/-- A recorded note as built by `onKeyPressed` / `onKeyReleased` while
recording: key name, start offset, and an end offset that stays `none` while
the key is held (`end_time` is `None` until the matching release). -/
structure RecordedNote where
  name : String
  start_time : ℚ
  end_time : Option ℚ
deriving DecidableEq, Repr

/-- A quantized note, the element type of a saved Tune. -/
structure QuantizedNote where
  name : String
  duration : ℚ
deriving DecidableEq, Repr

/-- The per-note duration computation inside the `quantize_notes` loop:
`quantized_duration` starts at `self.quantization.value` (the unit) and is
reassigned only in the two clamp branches, so an in-range duration is mapped
to the unit itself. -/
def quantizeDuration (unit d : ℚ) : ℚ :=
  if d < unit / 2 then unit / 2
  else if d > unit * (3 / 2) then unit * (3 / 2)
  else unit

/-- `quantize_notes` (lines 1264-1288): for each recorded note, skip it when
`end_time` is `None` (`continue`), otherwise emit the key name with the
quantized duration.  `unit` is `self.quantization.value`. -/
def quantize_notes (unit : ℚ) : List RecordedNote → List QuantizedNote
  | [] => []
  | nt :: rest =>
    match nt.end_time with
    | none => quantize_notes unit rest
    | some e =>
      { name := nt.name, duration := quantizeDuration unit (e - nt.start_time) }
        :: quantize_notes unit rest

/-! ## Trigger detector (`detectTrigger`, lines 707-731) -/

/-- Edge polarity selected in the trigger-edge combo box.  In the source any
string other than `'Rising'` takes the falling branch; the combo box only
offers these two values. -/
inductive Edge where
  | Rising : Edge
  | Falling : Edge
deriving DecidableEq, Repr

/-- The crossing predicate evaluated by `np.where` on the pair
`(buffer[k], buffer[k+1])`: rising means `buffer[k] < threshold` and
`buffer[k+1] >= threshold`; falling means `buffer[k] > threshold` and
`buffer[k+1] <= threshold`.  Only indices `k` with `k + 1 < buffer.length`
are ever inspected (the default value of `getD` is never read there). -/
def crossingAt (buffer : List ℚ) (threshold : ℚ) (edge : Edge) (k : ℕ) : Bool :=
  match edge with
  | .Rising => decide (buffer.getD k 0 < threshold) && decide (threshold ≤ buffer.getD (k + 1) 0)
  | .Falling => decide (threshold < buffer.getD k 0) && decide (buffer.getD (k + 1) 0 ≤ threshold)

/-- The index array computed by `np.where((buffer[:-1] ⋈ thr) & (buffer[1:] ⋈ thr))`:
all indices `k ∈ [0, len-1)` where the crossing predicate holds, in
increasing order. -/
def crossings (buffer : List ℚ) (threshold : ℚ) (edge : Edge) : List ℕ :=
  (List.range (buffer.length - 1)).filter (crossingAt buffer threshold edge)

/-- `detectTrigger` (lines 707-731): return `crossings[-1] + 1` (the index
just after the last qualifying crossing) or `None` when there is none. -/
def detectTrigger (buffer : List ℚ) (threshold : ℚ) (edge : Edge) : Option ℕ :=
  match (crossings buffer threshold edge).getLast? with
  | some k => some (k + 1)
  | none => none

/-- Specification-level crossing predicate: index `k` is a qualifying
crossing of `buffer` (both samples in range and the edge condition holds). -/
def isCrossing (buffer : List ℚ) (threshold : ℚ) (edge : Edge) (k : ℕ) : Prop :=
  k + 1 < buffer.length ∧ crossingAt buffer threshold edge k = true

instance (buffer : List ℚ) (threshold : ℚ) (edge : Edge) (k : ℕ) :
    Decidable (isCrossing buffer threshold edge k) := by
  unfold isCrossing; infer_instance

/-! ## Mix/normalize stage and audio callback (`audioCallback`, lines 624-705)

The oscillator loop (lines 656-677) accumulates transcendental waveform
values (`sin`, `sign∘sin`, sawtooth, triangle of the phase array) into `out`.
Every claim under study about this callback holds for *arbitrary* values of
that accumulated buffer, so the embedding takes the summed oscillator buffer
(`raw`, the value of `out` just before `out += dc` at line 680) as a
parameter and the theorems quantify over it universally.  The phase-array
update (lines 676-677) only writes `self.phases` and is not part of the
output/history state modelled here. -/

/-- `np.max(np.abs(out))` (line 686).  The fold starts at `0`; since every
`|x|` is nonnegative this agrees with numpy's maximum on any nonempty
buffer, and the audio device never requests zero frames. -/
def maxAbs (l : List ℚ) : ℚ := l.foldr (fun x m => max |x| m) 0

/-- Lines 679-688 of `audioCallback`: add the DC offset to every sample,
multiply by the volume, then peak-normalize by `max(|sample|) + |dc|`
whenever that peak exceeds `1.0`. -/
def mixNormalize (raw : List ℚ) (dc volume : ℚ) : List ℚ :=
  let out := raw.map (fun s => (s + dc) * volume)
  let max_amp := maxAbs out + |dc|
  if max_amp > 1 then out.map (fun s => s / max_amp) else out

/-- The two rolling histories: `cumulative_buffer` (display history,
`deque(maxlen=int(BUFFER_DURATION * SAMPLE_RATE))`) and `trigger_buffer`
(`deque(maxlen=int(BUFFER_DURATION * 2 * SAMPLE_RATE))`). -/
structure AudioState where
  cumulative_buffer : List ℚ
  trigger_buffer : List ℚ
deriving DecidableEq, Repr

/-- `deque.extend` with a `maxlen` bound: append on the right and drop the
oldest samples from the left once capacity is exceeded. -/
def extendBounded (maxlen : ℕ) (buf new : List ℚ) : List ℚ :=
  let l := buf ++ new
  l.drop (l.length - maxlen)

/-- `audioCallback` (lines 624-705), restricted to the output buffer and the
two histories.  If the snapshotted frequency multiplier is exactly `0.0` and
the DC offset is exactly `0.0`, emit all-zero output and clear both
histories; otherwise run the mix/normalize stage on the summed oscillator
buffer and append the produced samples to both histories. -/
def audioCallback (raw : List ℚ) (freq_multiplier : Mult) (dc volume : ℚ)
    (frames : ℕ) (st : AudioState) : List ℚ × AudioState :=
  if freq_multiplier = Mult.silent ∧ dc = 0 then
    (List.replicate frames 0, { cumulative_buffer := [], trigger_buffer := [] })
  else
    let out := mixNormalize raw dc volume
    (out,
     { cumulative_buffer := extendBounded (2 * SAMPLE_RATE) st.cumulative_buffer out,
       trigger_buffer := extendBounded (4 * SAMPLE_RATE) st.trigger_buffer out })

/-! ## Keyboard gesture handlers (`onKeyPressed` / `onKeyReleased`,
lines 801-864)

Only the fields read by the synthesis engine are modelled; the widget
styling, the `Current Key` label and the recording bookkeeping performed by
the same handlers are GUI/recording side effects outside this state. -/

/-- The active-note slice of the shared state mutated by the key handlers. -/
structure KeyState where
  freq_multiplier_step : Option ℕ
  freq_multiplier : Mult
  currentKey : Option String
deriving DecidableEq, Repr

/-- `onKeyPressed` (lines 801-835): for a recognized key, set the multiplier
step to the key's index `n` in `KEY_ORDER` and the multiplier to
`2 ** (n / 12)`; unrecognized senders leave the state unchanged. -/
def onKeyPressed (key : String) (st : KeyState) : KeyState :=
  if key ∈ KEY_ORDER then
    { freq_multiplier_step := some (KEY_ORDER.indexOf key),
      freq_multiplier := Mult.note (KEY_ORDER.indexOf key),
      currentKey := some key }
  else st

/-- `onKeyReleased` (lines 837-864): for a recognized key, unconditionally
reset the multiplier step to `None` and the multiplier to `0.0` — the
handler does not check whether the released key is the currently sounding
one. -/
def onKeyReleased (key : String) (st : KeyState) : KeyState :=
  if key ∈ KEY_ORDER then
    { freq_multiplier_step := none,
      freq_multiplier := Mult.silent,
      currentKey := none }
  else st

/-- A user gesture on the on-screen keyboard. -/
inductive GestureEvent where
  | press (key : String) : GestureEvent
  | release (key : String) : GestureEvent
deriving DecidableEq, Repr

/-- Dispatch one gesture to its handler. -/
def stepGesture (st : KeyState) : GestureEvent → KeyState
  | .press k => onKeyPressed k st
  | .release k => onKeyReleased k st

/-- Run a sequence of gestures in order. -/
def runGestures (st : KeyState) (events : List GestureEvent) : KeyState :=
  events.foldl stepGesture st

/-- The state before any gesture: no key pressed, multiplier `0.0`. -/
def initKeyState : KeyState :=
  { freq_multiplier_step := none, freq_multiplier := Mult.silent, currentKey := none }

/-! ## Tune scheduler (`playTune` / `pauseResumeTune` / `playNextNote` /
`endCurrentNote` / `stopTune`, lines 1117-1262)

Timer model, following Qt's semantics: `QTimer.singleShot(msec, slot)` is a
*static* method; the call `self.tune_timer.singleShot(...)` at line 1197
therefore creates a free-standing one-shot timer that is not owned by
`self.tune_timer` (which is never started — its `timeout` connection at line
70 never fires).  Consequently `self.tune_timer.stop()` (lines 1140, 1242)
does not cancel a scheduled `endCurrentNote`.  `pendingEnds` counts the
one-shot timers currently scheduled; `fireScheduledEnd` is the elapse of one
of them.  Wall-clock durations are abstracted away: only the order
schedule/fire matters for the properties studied.  Button labels and key
styling are GUI side effects outside this state. -/

/-- One element of a loaded tune: `{"name": ..., "duration": ...}`. -/
structure TuneNote where
  name : String
  duration : ℚ
deriving DecidableEq, Repr

/-- The tune-playback slice of the synthesizer state. -/
structure TuneState where
  is_playing_tune : Bool
  is_paused : Bool
  current_note_index : ℕ
  freq_multiplier_step : Option ℕ
  freq_multiplier : Mult
  currentKey : Option String
  pendingEnds : ℕ
deriving DecidableEq, Repr

/-- `playNextNote` (lines 1148-1197), with explicit fuel to express the
bounded recursion that skips invalid note names (`self.current_note_index`
strictly increases toward `len(self.current_tune)` on each recursive call,
so `tune.length + 1` units of fuel always suffice and the fuel-0 branch is
unreachable from `playNextNote` below). -/
def playNextNoteFuel : ℕ → List TuneNote → TuneState → TuneState
  | 0, _, st => st
  | fuel + 1, tune, st =>
    if st.is_playing_tune = false ∨ tune.length ≤ st.current_note_index then
      { st with is_playing_tune := false }
    else
      let note := tune.getD st.current_note_index { name := "", duration := 1 }
      if note.name ∈ KEY_ORDER then
        { st with
          freq_multiplier_step := some (KEY_ORDER.indexOf note.name),
          freq_multiplier := Mult.note (KEY_ORDER.indexOf note.name),
          currentKey := some note.name,
          pendingEnds := st.pendingEnds + 1 }
      else
        playNextNoteFuel fuel tune { st with current_note_index := st.current_note_index + 1 }

/-- `playNextNote`: dispatch the note at the current index (skipping names
not in `KEY_ORDER`), set the multiplier to the key's `2 ** (n / 12)` and
schedule a one-shot `endCurrentNote` (`pendingEnds + 1`); if playback is
over or inactive, just drop `is_playing_tune`. -/
def playNextNote (tune : List TuneNote) (st : TuneState) : TuneState :=
  playNextNoteFuel (tune.length + 1) tune st

/-- `endCurrentNote` (lines 1216-1237), run when a scheduled one-shot timer
fires: clear the multiplier to `0.0`, advance the index, and dispatch the
next note unless paused. -/
def endCurrentNote (tune : List TuneNote) (st : TuneState) : TuneState :=
  let st :=
    { st with
      freq_multiplier_step := none,
      freq_multiplier := Mult.silent,
      currentKey := none,
      current_note_index := st.current_note_index + 1 }
  if st.is_paused then st else playNextNote tune st

/-- The elapse of one scheduled one-shot timer: consume one pending timer
and run `endCurrentNote`.  With no pending timer nothing can fire. -/
def fireScheduledEnd (tune : List TuneNote) (st : TuneState) : TuneState :=
  if st.pendingEnds = 0 then st
  else endCurrentNote tune { st with pendingEnds := st.pendingEnds - 1 }

/-- `playTune` (lines 1117-1130): refuse when no tune is loaded or one is
already playing; otherwise enter Playing at index `0` and dispatch the
first note. -/
def playTune (tune : List TuneNote) (st : TuneState) : TuneState :=
  if tune.isEmpty then st
  else if st.is_playing_tune then st
  else
    playNextNote tune
      { st with is_playing_tune := true, is_paused := false, current_note_index := 0 }

/-- `pauseResumeTune` (lines 1132-1146).  Pausing sets `is_paused` and calls
`self.tune_timer.stop()`; per the timer model above that call does not touch
the scheduled one-shot, so `pendingEnds` is unchanged.  Resuming re-enters
`playNextNote` at the current index. -/
def pauseResumeTune (tune : List TuneNote) (st : TuneState) : TuneState :=
  if st.is_playing_tune = false then st
  else if st.is_paused = false then { st with is_paused := true }
  else playNextNote tune { st with is_paused := false }

/-- `stopTune` (lines 1239-1262): leave Playing, reset the index and the
active-note state.  The `self.tune_timer.stop()` call at line 1242 likewise
does not cancel a scheduled one-shot, so `pendingEnds` is unchanged. -/
def stopTune (st : TuneState) : TuneState :=
  if st.is_playing_tune then
    { st with
      is_playing_tune := false, is_paused := false, current_note_index := 0,
      freq_multiplier_step := none, freq_multiplier := Mult.silent, currentKey := none }
  else st

/-- The tune-scheduler state before any transport command. -/
def initTuneState : TuneState :=
  { is_playing_tune := false, is_paused := false, current_note_index := 0,
    freq_multiplier_step := none, freq_multiplier := Mult.silent, currentKey := none,
    pendingEnds := 0 }

/-! ## Settings snapshot loading (`loadAllSettings`, lines 905-1020)

A parsed JSON object is modelled by `Settings`: each field is `none` when the
key is absent from the object.  `frequency_multiplier_step` can be present
with the JSON value `null` (that is how `saveAllSettings` serializes "no key
pressed"), hence the nested `Option`.  The Python lines 916-931 validate
(raising, hence mutating nothing) *before* any widget or engine state is
written; the model mirrors that ordering.  Widget-range clamping performed
by `QSpinBox.setValue` and the GUI styling are not modelled; the cached
`self.volume` is deliberately left unchanged on a successful load because
the slider's signals are blocked while `setValue` runs (lines 943, 963,
1013) and `updateParameters` (line 1016) does not copy the volume. -/

/-- A parsed settings JSON object (`none` marks an absent key). -/
structure Settings where
  amplitudes : Option (List ℚ)
  frequencies : Option (List ℚ)
  waveforms : Option (List String)
  dc_offset : Option ℚ
  time_scale : Option ℚ
  trigger_threshold : Option ℚ
  trigger_edge : Option String
  trigger_holdoff : Option ℚ
  volume : Option ℚ
  frequency_multiplier_step : Option (Option ℤ)
  key_shift_semitones : Option ℤ
deriving DecidableEq, Repr

/-- The synthesizer state touched by `loadAllSettings` (the key-shift
frequency factor `2 ** (key_shift_semitones / 12)` is derived from
`key_shift_semitones` and always updated in lockstep with it, so it is not
stored separately). -/
structure SynthState where
  amp_values : List ℚ
  freq_values : List ℚ
  waveform_types : List String
  dc_value : ℚ
  time_scale : ℚ
  trigger_threshold : ℚ
  trigger_edge : String
  trigger_holdoff : ℚ
  volume : ℚ
  freq_multiplier_step : Option ℤ
  freq_multiplier : Mult
  currentKey : Option String
  key_shift_semitones : ℤ
deriving DecidableEq, Repr

/-- The required-keys check of lines 917-922. -/
def requiredKeysPresent (s : Settings) : Bool :=
  s.amplitudes.isSome && s.frequencies.isSome && s.waveforms.isSome &&
  s.dc_offset.isSome && s.time_scale.isSome && s.trigger_threshold.isSome &&
  s.trigger_edge.isSome && s.trigger_holdoff.isSome && s.volume.isSome &&
  s.frequency_multiplier_step.isSome && s.key_shift_semitones.isSome

/-- `loadAllSettings` (lines 905-1020) on an already-parsed object: returns
the surfaced error message (if any) together with the resulting state.  The
two validation failures raise before any assignment, so they return the
input state unchanged; the success path applies every field (via the
blocked-signal widget writes followed by `updateParameters`). -/
def loadAllSettings (s : Settings) (st : SynthState) : Option String × SynthState :=
  if requiredKeysPresent s = false then (some "Missing key in JSON", st)
  else
    let amplitudes := s.amplitudes.getD (List.replicate num_oscillators 0)
    let frequencies := s.frequencies.getD (List.replicate num_oscillators (26163 / 100))
    let waveforms := s.waveforms.getD (List.replicate num_oscillators "Sine")
    if amplitudes.length ≠ num_oscillators ∨ frequencies.length ≠ num_oscillators ∨
        waveforms.length ≠ num_oscillators then
      (some "Amplitude, frequency, and waveform lists must match the number of oscillators.",
       st)
    else
      let edge := s.trigger_edge.getD "Rising"
      let step := s.frequency_multiplier_step.getD none
      let stepValid : Bool :=
        match step with
        | some z => decide (0 ≤ z) && decide (z < (KEY_ORDER.length : ℤ))
        | none => false
      (none,
       { amp_values := amplitudes,
         freq_values := frequencies,
         waveform_types := waveforms.map (fun w => if w ∈ WAVEFORM_OPTIONS then w else "Sine"),
         dc_value := s.dc_offset.getD 0,
         time_scale := s.time_scale.getD (1 / 20),
         trigger_threshold := s.trigger_threshold.getD 0,
         trigger_edge := if edge = "Rising" ∨ edge = "Falling" then edge else st.trigger_edge,
         trigger_holdoff := s.trigger_holdoff.getD 100,
         volume := st.volume,
         freq_multiplier_step := if stepValid then step else none,
         freq_multiplier :=
           match step, stepValid with
           | some z, true => Mult.note z.toNat
           | _, _ => Mult.silent,
         currentKey :=
           match step, stepValid with
           | some z, true => some (KEY_ORDER.getD z.toNat "")
           | _, _ => none,
         key_shift_semitones := s.key_shift_semitones.getD 0 })

/-! ## Display synchronizer (`updatePlot`, lines 733-783) -/

/-- `int(duration * self.SAMPLE_RATE)`: the display window size in samples
(`duration` is positive, so Python's truncation is the floor). -/
def plotSamples (duration : ℚ) : ℕ := (Int.floor (duration * (SAMPLE_RATE : ℚ))).toNat

/-- Python's negative-index slice `buf[-k:]`: the `k` most recent samples.
For `k = 0` the slice is `buf[0:]`, i.e. the whole list. -/
def lastSamples (buf : List ℚ) (k : ℕ) : List ℚ :=
  if k = 0 then buf else buf.drop (buf.length - k)

/-- Lines 746-766: the window chosen before the final clip.  An accepted
trigger (found, and holdoff elapsed) aligns the window at the trigger index;
a holdoff-rejected or absent trigger falls back to the most recent
`int(duration * SAMPLE_RATE)` samples. -/
def chosenWindow (buf : List ℚ) (duration threshold : ℚ) (edge : Edge)
    (holdoff current_time last_trigger_time : ℚ) : List ℚ :=
  match detectTrigger buf threshold edge with
  | some ti =>
    if current_time - last_trigger_time ≥ holdoff then buf.drop ti
    else lastSamples buf (plotSamples duration)
  | none => lastSamples buf (plotSamples duration)

/-- The `last_trigger_time` bookkeeping of lines 750-755: refreshed only
when a trigger is accepted. -/
def newTriggerTime (buf : List ℚ) (threshold : ℚ) (edge : Edge)
    (holdoff current_time last_trigger_time : ℚ) : ℚ :=
  match detectTrigger buf threshold edge with
  | some _ =>
    if current_time - last_trigger_time ≥ holdoff then current_time else last_trigger_time
  | none => last_trigger_time

/-- Lines 768-770: clip the window to the most recent
`int(duration * SAMPLE_RATE)` samples when it is longer (there is no
padding branch). -/
def clipWindow (aligned : List ℚ) (n : ℕ) : List ℚ :=
  if aligned.length > n then lastSamples aligned n else aligned

/-- `updatePlot` (lines 733-783): `none` models the early return on an empty
trigger history; otherwise emit the clipped waveform window together with
the updated `last_trigger_time`.  The time axis (`np.linspace` over
`len(aligned_buffer)` points), the Y-range rescale and the trigger-line
position are rendering-only outputs derived from the emitted window. -/
def updatePlot (buf : List ℚ) (duration threshold : ℚ) (edge : Edge)
    (holdoff current_time last_trigger_time : ℚ) : Option (List ℚ × ℚ) :=
  if buf.length = 0 then none
  else
    some
      (clipWindow (chosenWindow buf duration threshold edge holdoff current_time last_trigger_time)
         (plotSamples duration),
       newTriggerTime buf threshold edge holdoff current_time last_trigger_time)

/-- All samples of a buffer lie in `[-1, 1]`. -/
def boundedByOne (l : List ℚ) : Prop := ∀ x ∈ l, |x| ≤ 1

/-- A parsed settings object with every required key absent. -/
def emptySettings : Settings :=
  { amplitudes := none, frequencies := none, waveforms := none, dc_offset := none,
    time_scale := none, trigger_threshold := none, trigger_edge := none,
    trigger_holdoff := none, volume := none, frequency_multiplier_step := none,
    key_shift_semitones := none }

/-- The synthesizer state at construction time (`__init__`, lines 44-86,
and the widget defaults of `initUI`). -/
def initSynthState : SynthState :=
  { amp_values := List.replicate num_oscillators 0,
    freq_values := List.replicate num_oscillators 0,
    waveform_types := List.replicate num_oscillators "Sine",
    dc_value := 0, time_scale := 1 / 20, trigger_threshold := 0, trigger_edge := "Rising",
    trigger_holdoff := 100, volume := 1, freq_multiplier_step := none,
    freq_multiplier := Mult.silent, currentKey := none, key_shift_semitones := 0 }

/-! ## Theorems -/

/-- Every member of a buffer is bounded by `maxAbs` of the buffer. -/
theorem abs_mem_le_maxAbs {x : ℚ} {l : List ℚ} (hx : x ∈ l) : |x| ≤ maxAbs l := by
  induction l with
  | nil => cases hx
  | cons a t ih =>
    rcases List.mem_cons.mp hx with rfl | h
    · exact le_max_left _ _
    · exact (ih h).trans (le_max_right _ _)

/-- The mix/normalize stage alone already bounds every output sample by `1`
in magnitude: when the peak (including the DC margin) is at most `1` the
samples are below it already, and otherwise the division by the peak
rescales them into `[-1, 1]`. -/
theorem mixNormalize_boundedByOne (raw : List ℚ) (dc volume : ℚ) :
    boundedByOne (mixNormalize raw dc volume) := by
  intro x hx
  simp only [mixNormalize] at hx
  split_ifs at hx with h
  · obtain ⟨y, hy, rfl⟩ := List.mem_map.mp hx
    have h1 : |y| ≤ maxAbs (raw.map fun s => (s + dc) * volume) := abs_mem_le_maxAbs hy
    have hd : (0 : ℚ) ≤ |dc| := abs_nonneg dc
    have hpos : (0 : ℚ) < maxAbs (raw.map fun s => (s + dc) * volume) + |dc| := by linarith
    rw [abs_div, abs_of_pos hpos, div_le_one hpos]
    linarith
  · push_neg at h
    have h1 : |x| ≤ maxAbs (raw.map fun s => (s + dc) * volume) := abs_mem_le_maxAbs hx
    have hd : (0 : ℚ) ≤ |dc| := abs_nonneg dc
    linarith

/-- C4: on every non-silent callback (multiplier non-zero or DC offset
non-zero), each sample written to the output buffer has magnitude at most
`1.0`; this holds for every oscillator sum `raw` (hence for all amplitudes,
frequencies and waveform kinds), every DC offset in `[-1, 1]` and every
volume in `[0, 1]`. -/
theorem audioCallback_output_bounded (raw : List ℚ) (m : Mult) (dc volume : ℚ)
    (frames : ℕ) (st : AudioState)
    (hns : ¬(m = Mult.silent ∧ dc = 0))
    (_hdc₁ : -1 ≤ dc) (_hdc₂ : dc ≤ 1) (_hv₁ : 0 ≤ volume) (_hv₂ : volume ≤ 1) :
    boundedByOne (audioCallback raw m dc volume frames st).1 := by
  unfold audioCallback
  rw [if_neg hns]
  exact mixNormalize_boundedByOne raw dc volume

/-- C4, witness: two oscillator samples whose mix would clip without the
normalization. -/
theorem audioCallback_output_bounded_witness :
    boundedByOne (audioCallback [2, -3] (Mult.note 0) (1 / 2) 1 2
      { cumulative_buffer := [], trigger_buffer := [] }).1 :=
  audioCallback_output_bounded [2, -3] (Mult.note 0) (1 / 2) 1 2
    { cumulative_buffer := [], trigger_buffer := [] }
    (fun h => nomatch h.1) (by norm_num) (by norm_num) (by norm_num) (by norm_num)

/-- In a filtered `List.range m`, if `kmax < m` satisfies the predicate and
dominates every index below `m` that satisfies it, then `kmax` is the last
element of the filtered list. -/
theorem filter_range_getLast?_eq (p : ℕ → Bool) (kmax : ℕ) :
    ∀ m, kmax < m → p kmax = true → (∀ j, j < m → p j = true → j ≤ kmax) →
      ((List.range m).filter p).getLast? = some kmax := by
  intro m
  induction m with
  | zero => intro hk; exact absurd hk (Nat.not_lt_zero kmax)
  | succ n ih =>
    intro hk hp hmax
    rw [List.range_succ, List.filter_append]
    by_cases hn : p n = true
    · have h1 : n ≤ kmax := hmax n (Nat.lt_succ_self n) hn
      have h2 : kmax = n := by omega
      subst h2
      simp [hn, List.getLast?_concat]
    · have hne : kmax ≠ n := fun h => hn (h ▸ hp)
      rw [show List.filter p [n] = [] from by simp [hn], List.append_nil]
      exact ih (by omega) hp (fun j hj hpj => hmax j (by omega) hpj)

/-- C6: if the buffer contains a qualifying crossing, `detectTrigger`
returns the index immediately after the largest crossing index; if it
contains none, it returns `None`. -/
theorem detectTrigger_last_crossing (buffer : List ℚ) (threshold : ℚ) (edge : Edge) :
    (∀ kmax, isCrossing buffer threshold edge kmax →
      (∀ j, j < buffer.length → isCrossing buffer threshold edge j → j ≤ kmax) →
      detectTrigger buffer threshold edge = some (kmax + 1)) ∧
    ((∀ k, ¬ isCrossing buffer threshold edge k) →
      detectTrigger buffer threshold edge = none) := by
  constructor
  · rintro kmax ⟨hlen, hp⟩ hmax
    have hlast : (crossings buffer threshold edge).getLast? = some kmax := by
      apply filter_range_getLast?_eq _ _ _ (by omega) hp
      intro j hj hpj
      exact hmax j (by omega) ⟨by omega, hpj⟩
    unfold detectTrigger
    rw [hlast]
  · intro hnone
    have hfil : crossings buffer threshold edge = [] := by
      unfold crossings
      rw [List.filter_eq_nil_iff]
      intro a ha hpa
      rw [List.mem_range] at ha
      exact hnone a ⟨by omega, hpa⟩
    unfold detectTrigger
    rw [hfil]
    rfl

/-- C6, witness: crossings of threshold `1/2` (Rising) at indices 0 and 2;
the detector returns the last one plus one. -/
theorem detectTrigger_last_crossing_witness :
    detectTrigger [0, 1, 0, 1, 0] (1 / 2) Edge.Rising = some 3 :=
  (detectTrigger_last_crossing [0, 1, 0, 1, 0] (1 / 2) Edge.Rising).1 2
    ⟨by norm_num, by norm_num [crossingAt, List.getD]⟩
    (by
      intro j hj hc
      rcases hc with ⟨hlen, hcb⟩
      have hj5 : j + 1 < 5 := by simpa using hlen
      have hj4 : j < 4 := by omega
      interval_cases j
      · omega
      · omega
      · omega
      · exact absurd hcb (by norm_num [crossingAt, List.getD]))

/-- C7: `loadAllSettings` is all-or-nothing — when a required key is absent
or one of the three oscillator arrays does not have length `N`, an error is
surfaced and the synthesizer state is returned unchanged. -/
theorem loadAllSettings_all_or_nothing (s : Settings) (st : SynthState)
    (h : requiredKeysPresent s = false ∨
      (s.amplitudes.getD (List.replicate num_oscillators 0)).length ≠ num_oscillators ∨
      (s.frequencies.getD
        (List.replicate num_oscillators (26163 / 100))).length ≠ num_oscillators ∨
      (s.waveforms.getD (List.replicate num_oscillators "Sine")).length ≠ num_oscillators) :
    (loadAllSettings s st).1.isSome = true ∧ (loadAllSettings s st).2 = st := by
  by_cases h1 : requiredKeysPresent s = false
  · simp only [loadAllSettings, if_pos h1]
    exact ⟨rfl, trivial⟩
  · have h2 : (s.amplitudes.getD (List.replicate num_oscillators 0)).length ≠
        num_oscillators ∨
      (s.frequencies.getD
        (List.replicate num_oscillators (26163 / 100))).length ≠ num_oscillators ∨
      (s.waveforms.getD (List.replicate num_oscillators "Sine")).length ≠
        num_oscillators := by
      rcases h with h | h | h | h
      · exact absurd h h1
      · exact Or.inl h
      · exact Or.inr (Or.inl h)
      · exact Or.inr (Or.inr h)
    simp only [loadAllSettings, if_neg h1]
    rw [if_pos h2]
    exact ⟨rfl, rfl⟩

/-- C7, witness: loading an object with every required key absent reports
an error and leaves the construction-time state untouched. -/
theorem loadAllSettings_all_or_nothing_witness :
    (loadAllSettings emptySettings initSynthState).1.isSome = true ∧
    (loadAllSettings emptySettings initSynthState).2 = initSynthState :=
  loadAllSettings_all_or_nothing emptySettings initSynthState (Or.inl rfl)

/-- C8, counterexample: with trigger history `[0, 1]`, threshold `1/2`,
rising edge, display duration 1 s and an elapsed holdoff, the accepted
trigger is at index 1, so the emitted window is `[1]` — one sample, not the
`duration × sampleRate = 44100` samples the claim requires (the code clips
but never pads). -/
theorem updatePlot_window_not_exact :
    (updatePlot [0, 1] 1 (1 / 2) Edge.Rising 0 1000 0).map (fun r => r.1.length) = some 1 ∧
    plotSamples 1 = 44100 ∧ (1 : ℕ) ≠ 44100 := by
  refine ⟨?_, ?_, by norm_num⟩
  · norm_num [updatePlot, chosenWindow, newTriggerTime, clipWindow, detectTrigger, crossings,
      crossingAt, plotSamples, lastSamples, SAMPLE_RATE, List.range_succ, List.getD]
  · norm_num [plotSamples, SAMPLE_RATE]; decide

/-- Length of the clip step: clipping to the most recent `n` samples when
longer, leaving shorter windows alone (no padding), for positive `n`. -/
theorem clipWindow_length (w : List ℚ) (n : ℕ) (hn : 0 < n) :
    (clipWindow w n).length = min w.length n := by
  unfold clipWindow lastSamples
  split_ifs with h1 h2
  · omega
  · rw [List.length_drop]; omega
  · omega

/-- C8, amended: on every update with a non-empty trigger history and a
positive window size `n = int(duration × sampleRate)`, the emitted waveform
has exactly `min(chosen-window length, n)` samples — it is clipped to `n`
when the chosen window is longer, and emitted at its own (shorter) length
otherwise; it is never padded. -/
theorem updatePlot_emitted_length (buf : List ℚ) (duration threshold : ℚ) (edge : Edge)
    (holdoff current_time last_trigger_time : ℚ)
    (hb : ¬buf.length = 0) (hn : 0 < plotSamples duration) :
    (updatePlot buf duration threshold edge holdoff current_time last_trigger_time).map
        (fun r => r.1.length) =
      some (min (chosenWindow buf duration threshold edge holdoff current_time
          last_trigger_time).length (plotSamples duration)) := by
  unfold updatePlot
  rw [if_neg hb]
  simp only [Option.map_some']
  exact congrArg some (clipWindow_length _ _ hn)

/-- C8, witness for the amended theorem at the counterexample input. -/
theorem updatePlot_emitted_length_witness :
    (updatePlot [0, 1] 1 (1 / 2) Edge.Rising 0 1000 0).map (fun r => r.1.length) =
      some (min (chosenWindow [0, 1] 1 (1 / 2) Edge.Rising 0 1000 0).length
        (plotSamples 1)) :=
  updatePlot_emitted_length [0, 1] 1 (1 / 2) Edge.Rising 0 1000 0 (by simp)
    (by norm_num [plotSamples, SAMPLE_RATE])

/-- C1, counterexample: the claim says a closed note's duration `d` with
`u/2 ≤ d ≤ u * 1.5` is left unchanged, and in particular that a 0.6 s note
quantizes to 0.6 s with unit 0.5 s.  On the code, that note quantizes to the
unit 0.5 s itself, and `0.5 ≠ 0.6`. -/
theorem quantize_notes_in_range_not_unchanged :
    quantize_notes (1 / 2) [{ name := "G3", start_time := 0, end_time := some (3 / 5) }] =
      [{ name := "G3", duration := 1 / 2 }] ∧ ((1 : ℚ) / 2) ≠ ((3 : ℚ) / 5) := by
  refine ⟨?_, by norm_num⟩
  norm_num [quantize_notes, quantizeDuration]

/-- C1, amended: `quantize_notes` with unit `u` maps a closed note of
duration `d` to `u/2` when `d < u/2`, to `u * 1.5` when `d > u * 1.5`, and
otherwise to the unit `u` itself (a snap to the unit, not the unchanged
duration); in particular a note of duration 0.6 s with unit 0.5 s quantizes
to exactly 0.5 s. -/
theorem quantize_notes_duration_cases (unit s e : ℚ) (name : String) (hu : 0 < unit) :
    (e - s < unit / 2 →
      quantize_notes unit [{ name := name, start_time := s, end_time := some e }] =
        [{ name := name, duration := unit / 2 }]) ∧
    (unit * (3 / 2) < e - s →
      quantize_notes unit [{ name := name, start_time := s, end_time := some e }] =
        [{ name := name, duration := unit * (3 / 2) }]) ∧
    (unit / 2 ≤ e - s → e - s ≤ unit * (3 / 2) →
      quantize_notes unit [{ name := name, start_time := s, end_time := some e }] =
        [{ name := name, duration := unit }]) := by
  refine ⟨fun h => ?_, fun h => ?_, fun h h' => ?_⟩ <;>
    simp only [quantize_notes, quantizeDuration] <;>
    split_ifs <;> first
      | rfl
      | (exfalso; linarith)

/-- C1, witness for the amended theorem at unit 0.5 s and duration 0.6 s. -/
theorem quantize_notes_duration_cases_witness :
    quantize_notes (1 / 2) [{ name := "G3", start_time := 0, end_time := some (3 / 5) }] =
      [{ name := "G3", duration := (1 : ℚ) / 2 }] := by
  have h := (quantize_notes_duration_cases (1 / 2) 0 (3 / 5) "G3" (by norm_num)).2.2
    (by norm_num) (by norm_num)
  simpa using h

/-- C9: a recorded note whose end offset was never filled contributes no
entry to the quantized output — `quantize_notes` is exactly the quantization
map over the closed notes, in order. -/
theorem quantize_notes_drops_open_notes (unit : ℚ) (l : List RecordedNote) :
    quantize_notes unit l =
      (l.filter (fun nt => nt.end_time.isSome)).map
        (fun nt =>
          { name := nt.name,
            duration := quantizeDuration unit (nt.end_time.getD 0 - nt.start_time) }) := by
  induction l with
  | nil => rfl
  | cons nt rest ih =>
    cases h : nt.end_time <;> simp [quantize_notes, h, ih]

/-- C10: on any buffer with fewer than two samples, for every threshold and
edge, `detectTrigger` returns `None`. -/
theorem detectTrigger_short_buffer (buffer : List ℚ) (threshold : ℚ) (edge : Edge)
    (h : buffer.length < 2) : detectTrigger buffer threshold edge = none := by
  have h0 : buffer.length - 1 = 0 := by omega
  simp [detectTrigger, crossings, h0]

/-- C10, witness: the empty buffer. -/
theorem detectTrigger_short_buffer_witness :
    detectTrigger ([] : List ℚ) 0 Edge.Rising = none :=
  detectTrigger_short_buffer [] 0 Edge.Rising (by simp)

/-- C5: when the snapshotted multiplier is exactly `0.0` and the DC offset
is exactly `0.0`, the audio callback emits an all-zero buffer (the
oscillator loop is skipped for every possible oscillator sum `raw`) and
clears both the display history and the trigger history. -/
theorem audioCallback_silent (raw : List ℚ) (volume : ℚ) (frames : ℕ) (st : AudioState) :
    audioCallback raw Mult.silent 0 volume frames st =
      (List.replicate frames 0, { cumulative_buffer := [], trigger_buffer := [] }) := by
  simp [audioCallback]

/-- C2, counterexample: press G3, press A3 (A3 becomes the active note with
multiplier `2 ** (2/12)`), then release G3.  The claim says the release of
G3 must not set the multiplier to 0; on the code it does — `onKeyReleased`
resets the multiplier unconditionally, so A3 is silenced. -/
theorem gesture_release_silences_newer_note :
    (runGestures initKeyState
        [GestureEvent.press "G3", GestureEvent.press "A3"]).freq_multiplier =
      Mult.note 2 ∧
    (runGestures initKeyState
        [GestureEvent.press "G3", GestureEvent.press "A3",
         GestureEvent.release "G3"]).freq_multiplier = Mult.silent :=
  ⟨rfl, rfl⟩

/-- C2, amended: the multiplier is a single scalar, so at most one note is
active at any instant and a later gesture-down does win at the moment it
happens; however a prior key's gesture-up does re-silence the newer note:
after press A, press B, release A the multiplier is `0.0`. -/
theorem gesture_last_down_wins_until_any_release (st : KeyState) (a b : String)
    (ha : a ∈ KEY_ORDER) (hb : b ∈ KEY_ORDER) :
    (runGestures st [GestureEvent.press a, GestureEvent.press b]).freq_multiplier =
      Mult.note (KEY_ORDER.indexOf b) ∧
    (runGestures st [GestureEvent.press a, GestureEvent.press b,
        GestureEvent.release a]).freq_multiplier = Mult.silent := by
  simp [runGestures, stepGesture, onKeyPressed, onKeyReleased, ha, hb]

/-- C2, witness for the amended theorem at A = G3, B = A3. -/
theorem gesture_last_down_wins_until_any_release_witness :
    (runGestures initKeyState
        [GestureEvent.press "G3", GestureEvent.press "A3"]).freq_multiplier =
      Mult.note (KEY_ORDER.indexOf "A3") ∧
    (runGestures initKeyState
        [GestureEvent.press "G3", GestureEvent.press "A3",
         GestureEvent.release "G3"]).freq_multiplier = Mult.silent :=
  gesture_last_down_wins_until_any_release initKeyState "G3" "A3" (by decide) (by decide)

/-- C3: evaluation of the tune scheduler at the failing scenario.  Load the
one-note tune G3 (duration 1 s), Play, then Pause while the note sounds:
the pause leaves the scheduled one-shot `endCurrentNote` pending
(`pendingEnds = 1`, because `QTimer.singleShot` timers are not cancelled by
`self.tune_timer.stop()`), and when that timer elapses during the pause the
active-note multiplier is cleared to `0.0` — contradicting the claim that
the note keeps sounding until Resume or Stop. -/
theorem pauseResumeTune_does_not_cancel_pending_end :
    (pauseResumeTune [{ name := "G3", duration := 1 }]
        (playTune [{ name := "G3", duration := 1 }] initTuneState)).is_paused = true ∧
    (pauseResumeTune [{ name := "G3", duration := 1 }]
        (playTune [{ name := "G3", duration := 1 }] initTuneState)).freq_multiplier =
      Mult.note 0 ∧
    (pauseResumeTune [{ name := "G3", duration := 1 }]
        (playTune [{ name := "G3", duration := 1 }] initTuneState)).pendingEnds = 1 ∧
    (fireScheduledEnd [{ name := "G3", duration := 1 }]
        (pauseResumeTune [{ name := "G3", duration := 1 }]
          (playTune [{ name := "G3", duration := 1 }] initTuneState))).freq_multiplier =
      Mult.silent :=
  ⟨rfl, rfl, rfl, rfl⟩

end KeyboardProg
